import Mathlib

/-!
Shallow embedding of the epistemic-risk-detector analysis pipeline
(claim extraction, lexical classification, alignment evaluation,
confidence calibration, verdict synthesis, local vector retrieval),
translated from the Python sources under `src/`.

Modelling conventions:
  * Python `float` values (confidences, scores, penalties, thresholds,
    similarities) are modelled as exact rationals `ℚ`; every claim proved
    here concerns control flow and comparisons that are exact at the
    inputs involved.
  * Text is modelled as `List Char`.  The Python regexes involved are
    word/phrase alternations with `\b` anchors, digit runs and whitespace
    runs; they are compiled here into explicit scanners with the same
    match semantics on ASCII text (Python's `\w`, `\d`, `\s`, `.lower()`
    are Unicode-aware, which coincides with this model on the ASCII texts
    all concrete inputs use).
  * The two external oracles (the LLM judge and the embedding model) are
    inputs: an oracle response is a value of a structure mirroring the
    JSON object the code reads, an oracle failure is `Except.error`, and
    an embedding is the `List ℚ` the store would have persisted.
-/

/- The core rational operations are `@[irreducible]`, which blocks only
the elaborator's evaluation (the kernel unfolds them regardless); the
theorems that evaluate the pipeline at concrete inputs by `decide`
restore unfolding locally, each with
`attribute [local semireducible] … in`. -/
set_option allowUnsafeReducibility true

deriving instance DecidableEq for Except

/-! ## Characters, word boundaries, and `\b`-anchored phrase search -/

/-- Python regex `\w` on ASCII text: letters, digits, underscore. -/
def isWordChar (c : Char) : Bool := c.isAlphanum || c == '_'

/-- Python regex `\s` / `str.strip` whitespace on ASCII text. -/
def isSpaceChar (c : Char) : Bool :=
  c == ' ' || c == '\t' || c == '\n' || c == '\r' || c == '\x0b' || c == '\x0c'

/-- Case-insensitive character comparison (`re.IGNORECASE` on ASCII). -/
def lowerEq (a b : Char) : Bool := a.toLower == b.toLower

/-- Case-insensitive prefix test. -/
def ciPrefix : List Char → List Char → Bool
  | [], _ => true
  | _ :: _, [] => false
  | p :: ps, c :: cs => lowerEq p c && ciPrefix ps cs

/-- The side condition of `\b` on the side of a non-word neighbour:
holds when the neighbouring character is absent or not a word character.
Used where the adjacent pattern character is a word character. -/
def boundaryL (prev : Option Char) : Bool :=
  match prev with
  | none => true
  | some c => !isWordChar c

/-- Mirror of `boundaryL` for the right edge of a match. -/
def boundaryR (next : Option Char) : Bool :=
  match next with
  | none => true
  | some c => !isWordChar c

/-- Whether the pattern (whose first and last characters are word
characters) matches at the head of `rest`, with `\b` on both sides;
`prev` is the character just before the position. -/
def wordAt (pat : List Char) (prev : Option Char) (rest : List Char) : Bool :=
  boundaryL prev && ciPrefix pat rest && boundaryR (rest.drop pat.length).head?

/-- Scan every position of the text for a position-predicate. -/
def scanAny (p : Option Char → List Char → Bool) : Option Char → List Char → Bool
  | _, [] => false
  | prev, c :: cs => p prev (c :: cs) || scanAny p (some c) cs

/-- `re.search` for a single `\b`-delimited word or phrase (the phrase may
contain literal spaces, e.g. `"in my opinion"`), case-insensitive. -/
def occursWord (pat : String) (text : List Char) : Bool :=
  scanAny (wordAt pat.toList) none text

/-- `re.search` over an alternation of `\b`-delimited words/phrases. -/
def occursAny (pats : List String) (text : List Char) : Bool :=
  pats.any (fun p => occursWord p text)

/-! ## Sequencing matchers for the digit/whitespace patterns

A matcher consumes a prefix of the text and returns the consumed
characters and the remainder.  The regexes modelled with these are the
ones analysed pattern-by-pattern in the comments at their definitions;
the greedy-with-fallback behaviour of Python's engine is encoded with
explicit alternatives wherever backtracking can matter. -/

/-- A prefix matcher: `some (consumed, rest)` on success. -/
def Matcher : Type := List Char → Option (List Char × List Char)

/-- Match one character satisfying `p`. -/
def mChar (p : Char → Bool) : Matcher := fun l =>
  match l with
  | c :: cs => if p c then some ([c], cs) else none
  | [] => none

/-- Match the literal string case-insensitively. -/
def mStrCI (s : String) : Matcher := fun l =>
  if ciPrefix s.toList l then some (l.take s.length, l.drop s.length) else none

/-- Match a non-empty maximal run of characters satisfying `p` (`X+`). -/
def mRun1 (p : Char → Bool) : Matcher := fun l =>
  let t := l.takeWhile p
  if t.isEmpty then none else some (t, l.dropWhile p)

/-- Match a maximal run of `p`-characters whose length lies in `[lo, hi]`
(`p{lo,hi}` when the character that follows the run cannot extend it:
a shorter take would put the required boundary between two run
characters, which never holds for word characters). -/
def mRunBetween (p : Char → Bool) (lo hi : Nat) : Matcher := fun l =>
  let t := l.takeWhile p
  if lo ≤ t.length && t.length ≤ hi then some (t, l.dropWhile p) else none

/-- Match a possibly empty maximal run of characters satisfying `p`
(`X*` where what follows cannot extend the run). -/
def mRun0 (p : Char → Bool) : Matcher := fun l =>
  some (l.takeWhile p, l.dropWhile p)

/-- Zero-width `\b` against the next character. -/
def mBoundaryR : Matcher := fun l =>
  if boundaryR l.head? then some ([], l) else none

/-- Sequence two matchers (no backtracking across the seam; used only
where the pattern analysis shows none is possible). -/
def mSeq (a b : Matcher) : Matcher := fun l =>
  match a l with
  | some (c1, r1) =>
    match b r1 with
    | some (c2, r2) => some (c1 ++ c2, r2)
    | none => none
  | none => none

/-- Ordered alternation: first alternative that matches wins. -/
def mAlt (a b : Matcher) : Matcher := fun l =>
  match a l with
  | some x => some x
  | none => b l

/-- Ordered alternation over a list of matchers. -/
def mAny (ms : List Matcher) : Matcher := fun l =>
  match ms with
  | [] => none
  | m :: rest => mAlt m (mAny rest) l

/-- Greedy `X?` where failing to extend can only fail the whole match
(checked per pattern). -/
def mOpt (a : Matcher) : Matcher := fun l =>
  match a l with
  | some x => some x
  | none => some ([], l)

/-- The `re.findall` driver for a pattern that starts with `\b` followed
by a word character and always consumes at least one character: scan left
to right, emit each non-overlapping match, resume after the match.  The
fuel is at least `text.length + 1`, which the per-step consumption makes
sufficient. -/
def findAllM (m : Matcher) : Nat → Option Char → List Char → List String
  | 0, _, _ => []
  | _ + 1, _, [] => []
  | fuel + 1, prev, c :: cs =>
    if boundaryL prev then
      match m (c :: cs) with
      | some (consumed, rest) =>
        if consumed.isEmpty then findAllM m fuel (some c) cs
        else String.mk consumed :: findAllM m fuel consumed.getLast? rest
      | none => findAllM m fuel (some c) cs
    else findAllM m fuel (some c) cs

/-- Run a findall scan over the whole text. -/
def findAll (m : Matcher) (text : List Char) : List String :=
  findAllM m (text.length + 1) none text

/-! ## Lexical pattern sets (`NEGATION_PATTERNS`, `VAGUE_PATTERNS`,
`HEDGING_PATTERNS`, `MULTI_HOP_PATTERNS`, `TEMPORAL_PATTERNS`,
`COMPARATIVE_PATTERNS`, `QUANTITATIVE_PATTERNS`) -/

/-- The apostrophe character, used to spell the contraction words. -/
def apos : Char := Char.ofNat 39

/-- Append an apostrophe and a `t` to a contraction stem. -/
def contraction (stem : String) : String := String.mk (stem.toList ++ [apos, 't'])

/-- The words of `NEGATION_PATTERNS` (the whole set is compiled with
`re.IGNORECASE`, so the explicit `\bNOT\b` pattern is subsumed by
`not`). -/
def negation_words : List String :=
  ["not", "no", "never", "none", "neither", "nor", "nothing", "nowhere",
   "nobody", "cannot"] ++
  (["isn", "aren", "wasn", "weren", "won", "wouldn", "couldn", "shouldn",
    "doesn", "don", "didn", "hasn", "haven", "hadn", "can"].map contraction)

/-- `LLMAlignmentEvaluator._detect_negation`. -/
def detect_negation (text : List Char) : Bool := occursAny negation_words text

/-- The words of `VAGUE_PATTERNS` (calibrator); `seems?`, `appears?` and
`suggests?` are expanded into both alternatives. -/
def vague_words : List String :=
  ["might", "may", "could", "possibly", "perhaps", "probably", "likely",
   "unlikely", "some", "many", "few", "several", "various", "certain",
   "often", "sometimes", "occasionally", "rarely", "usually", "generally",
   "seem", "seems", "appear", "appears", "suggest", "suggests",
   "around", "approximately", "about", "roughly",
   "I think", "I believe", "in my opinion"]

/-- `PenaltyBasedCalibrator._detect_vague_language`. -/
def detect_vague_language (text : List Char) : Bool := occursAny vague_words text

/-- The words of `HEDGING_PATTERNS` (claim extractor). -/
def hedging_words : List String :=
  ["might", "may", "could", "possibly", "perhaps", "probably", "likely",
   "unlikely", "it is believed", "it is thought", "some say", "reportedly",
   "allegedly", "seem", "seems", "appear", "appears", "suggest", "suggests",
   "indicate", "indicates", "I think", "I believe", "in my opinion",
   "arguably", "generally", "typically", "usually", "often", "sometimes"]

/-- `LLMClaimExtractor._detect_hedging`. -/
def detect_hedging (text : List Char) : Bool := occursAny hedging_words text

/-- The words of `MULTI_HOP_PATTERNS`. -/
def multi_hop_words : List String :=
  ["because", "therefore", "thus", "hence", "consequently", "as a result",
   "since", "given that", "due to", "owing to", "which means",
   "this implies", "leading to"]

/-! ### Digit-bearing patterns, one matcher per regex -/

/-- `\b\d{4}\b` (temporal marker pattern 1). -/
def mFourDigits : Matcher := mSeq (mRunBetween Char.isDigit 4 4) mBoundaryR

/-- `\bv?\d+\.\d+(?:\.\d+)?\b` (temporal marker pattern 2).  The optional
`v` cannot force backtracking (without it `\d+` would start at the `v`
and fail), and a failing third component falls back to the boundary after
the second, which the dot that begins the failed component satisfies. -/
def mVersion : Matcher :=
  mSeq (mOpt (mChar (fun c => c == 'v' || c == 'V')))
    (mSeq (mRun1 Char.isDigit)
      (mSeq (mChar (· == '.'))
        (mSeq (mRun1 Char.isDigit)
          (mAlt (mSeq (mChar (· == '.')) (mSeq (mRun1 Char.isDigit) mBoundaryR))
            mBoundaryR))))

/-- The twelve month names. -/
def month_names : List String :=
  ["January", "February", "March", "April", "May", "June", "July",
   "August", "September", "October", "November", "December"]

/-- Month-name dates (temporal marker pattern 3):
`\b(?:January|…|December)\s+\d{1,2},?\s+\d{4}\b`.  The day component
`\d{1,2}` matches exactly a maximal run of length 1 or 2 (a longer run
leaves a digit where the comma or whitespace must follow, and shrinking
the take puts the seam between two digits); a comma not followed by
whitespace fails both alternatives of `,?\s+`. -/
def mMonthDate : Matcher :=
  mSeq (mAny (month_names.map mStrCI))
    (mSeq (mRun1 isSpaceChar)
      (mSeq (mRunBetween Char.isDigit 1 2)
        (mSeq (mAlt (mSeq (mChar (· == ',')) (mRun1 isSpaceChar)) (mRun1 isSpaceChar))
          (mSeq (mRunBetween Char.isDigit 4 4) mBoundaryR))))

/-- Slash dates (temporal marker pattern 4): `\b\d{1,2}/\d{1,2}/\d{2,4}\b`. -/
def mSlashDate : Matcher :=
  mSeq (mRunBetween Char.isDigit 1 2)
    (mSeq (mChar (· == '/'))
      (mSeq (mRunBetween Char.isDigit 1 2)
        (mSeq (mChar (· == '/'))
          (mSeq (mRunBetween Char.isDigit 2 4) mBoundaryR))))

/-- Relative time words (temporal marker pattern 5):
`\b(?:yesterday|today|tomorrow|last\s+\w+|next\s+\w+)\b`; after a maximal
`\w+` run the closing `\b` holds automatically. -/
def mRelativeTime : Matcher :=
  mAny
    [mSeq (mStrCI "yesterday") mBoundaryR,
     mSeq (mStrCI "today") mBoundaryR,
     mSeq (mStrCI "tomorrow") mBoundaryR,
     mSeq (mStrCI "last") (mSeq (mRun1 isSpaceChar) (mSeq (mRun1 isWordChar) mBoundaryR)),
     mSeq (mStrCI "next") (mSeq (mRun1 isSpaceChar) (mSeq (mRun1 isWordChar) mBoundaryR))]

/-- `LLMAlignmentEvaluator._extract_temporal_markers`: the `re.findall`
results of the five patterns, concatenated in pattern order. -/
def extract_temporal_markers (text : List Char) : List String :=
  findAll mFourDigits text ++ findAll mVersion text ++ findAll mMonthDate text ++
    findAll mSlashDate text ++ findAll mRelativeTime text

/-- `\b\d+(?:\.\d+)?\b` full matches (the number sets of
`_detect_contradiction_type`).  When the fractional part fails (no digit
after the dot, or no boundary after the fractional digits) the match
falls back to the integer part, whose closing boundary the dot itself
satisfies. -/
def mNumber : Matcher :=
  mSeq (mRun1 Char.isDigit)
    (mAlt (mSeq (mChar (· == '.')) (mSeq (mRun1 Char.isDigit) mBoundaryR))
      mBoundaryR)

/-- The number strings of a text, in match order. -/
def extract_numbers (text : List Char) : List String := findAll mNumber text

/-- `LLMAlignmentEvaluator._extract_years`: `re.findall(YEAR_PATTERN, text)`
with `YEAR_PATTERN = r"\b(19|20)\d{2}\b"`.  Because the pattern has the
capturing group `(19|20)`, `re.findall` returns the CAPTURED century
prefix (`"19"` or `"20"`), not the full four-digit year; the scanner
below reproduces exactly that. -/
def extract_years_aux : Nat → Option Char → List Char → List String
  | 0, _, _ => []
  | _ + 1, _, [] => []
  | fuel + 1, prev, c1 :: cs =>
    match cs with
    | c2 :: c3 :: c4 :: rest =>
      if boundaryL prev && ((c1 == '1' && c2 == '9') || (c1 == '2' && c2 == '0')) &&
          c3.isDigit && c4.isDigit && boundaryR rest.head?
      then String.mk [c1, c2] :: extract_years_aux fuel (some c4) rest
      else extract_years_aux fuel (some c1) cs
    | _ => []

/-- `re.findall` of the year pattern over a text. -/
def extract_years (text : List Char) : List String :=
  extract_years_aux (text.length + 1) none text

/-! ### Claim-type classification (`LLMClaimExtractor._detect_claim_type`) -/

/-- `QUANTITATIVE_PATTERNS` pattern 1:
`\b\d+(?:\.\d+)?\s*(?:billion|million|thousand|percent|%)\b`.  The `%`
alternative is followed by `\b`, which after the non-word `%` requires a
word character next. -/
def mQuantUnit : Matcher :=
  mSeq (mRun1 Char.isDigit)
    (mSeq (mOpt (mSeq (mChar (· == '.')) (mRun1 Char.isDigit)))
      (mSeq (mRun0 isSpaceChar)
        (mAny
          [mSeq (mStrCI "billion") mBoundaryR,
           mSeq (mStrCI "million") mBoundaryR,
           mSeq (mStrCI "thousand") mBoundaryR,
           mSeq (mStrCI "percent") mBoundaryR,
           mSeq (mChar (· == '%')) (mChar isWordChar)])))

/-- `QUANTITATIVE_PATTERNS` pattern 2:
`\b(?:approximately|about|around|roughly)\s*\d+\b`. -/
def mQuantApprox : Matcher :=
  mSeq (mAny ((["approximately", "about", "around", "roughly"]).map mStrCI))
    (mSeq (mRun0 isSpaceChar)
      (mSeq (mRun1 Char.isDigit) mBoundaryR))

/-- Whether either quantitative pattern matches somewhere. -/
def quantitative_search (text : List Char) : Bool :=
  !(findAll mQuantUnit text).isEmpty || !(findAll mQuantApprox text).isEmpty

/-- `COMPARATIVE_PATTERNS` pattern 1:
`\b(?:faster|…|smaller)\s+than\b`. -/
def mCompThan : Matcher :=
  mSeq (mAny ((["faster", "slower", "better", "worse", "more", "less",
                "larger", "smaller"]).map mStrCI))
    (mSeq (mRun1 isSpaceChar) (mSeq (mStrCI "than") mBoundaryR))

/-- Whether a comparative pattern matches somewhere.  In
`\b(?:compared to|relative to|versus|vs\.?)\b` the `vs\.` alternative
matches only where plain `\bvs\b` also matches (the dot itself closes
the word boundary), so existence reduces to the word search. -/
def comparative_search (text : List Char) : Bool :=
  !(findAll mCompThan text).isEmpty ||
    occursAny ["compared to", "relative to", "versus", "vs"] text

/-- `TEMPORAL_PATTERNS` pattern 2: `\b(?:in \d{4}|during \d{4}|by \d{4})\b`
(a single literal space between the keyword and the four digits). -/
def mTempYearPhrase : Matcher :=
  mSeq (mAny ((["in", "during", "by"]).map mStrCI))
    (mSeq (mChar (· == ' ')) (mSeq (mRunBetween Char.isDigit 4 4) mBoundaryR))

/-- Whether a temporal pattern (extractor set) matches somewhere. -/
def temporal_search (text : List Char) : Bool :=
  occursAny ["as of", "since", "until", "before", "after", "recently",
    "currently", "now"] text ||
  !(findAll mTempYearPhrase text).isEmpty ||
  occursAny ["last year", "this year", "next year"] text

/-- The claim-type labels of `ClaimType`. -/
inductive ClaimType
  | DIRECT
  | HEDGED
  | MULTI_HOP
  | TEMPORAL
  | COMPARATIVE
  | QUANTITATIVE
deriving DecidableEq, Repr

/-- `LLMClaimExtractor._detect_claim_type`: rule order HEDGED, MULTI_HOP,
QUANTITATIVE, COMPARATIVE, TEMPORAL, DIRECT. -/
def detect_claim_type (text : List Char) : ClaimType :=
  if detect_hedging text then .HEDGED
  else if occursAny multi_hop_words text then .MULTI_HOP
  else if quantitative_search text then .QUANTITATIVE
  else if comparative_search text then .COMPARATIVE
  else if temporal_search text then .TEMPORAL
  else .DIRECT

/-! ## Schemas (`src/core/schemas.py`) -/

/-- `AlignmentLabel`. -/
inductive AlignmentLabel
  | SUPPORTS
  | WEAK_SUPPORT
  | CONTRADICTS
  | IRRELEVANT
deriving DecidableEq, Repr

/-- `VerdictLabel`. -/
inductive VerdictLabel
  | GROUNDED
  | WEAK
  | HALLUCINATED
deriving DecidableEq, Repr

/-- `ContradictionType`. -/
inductive ContradictionType
  | NONE
  | DIRECT_NEGATION
  | TEMPORAL_MISMATCH
  | QUANTITATIVE_MISMATCH
  | OUTDATED_EVIDENCE
  | PARTIAL_OVERLAP
deriving DecidableEq, Repr

/-- `Claim` (the opaque `metadata` dict, unused by the pipeline logic, is
omitted).  Spans are integers as in the source (the oracle may hand back
any int). -/
structure Claim where
  id : String
  text : List Char
  source_span : Int × Int
  raw_confidence : ℚ
  is_factual : Bool
  claim_type : ClaimType
  extraction_confidence : ℚ
  hedging_detected : Bool
deriving DecidableEq, Repr

/-- Pydantic validation of a `Claim` at construction: the declared field
constraints plus the `validate_span` field validator
(`source_span start must be <= end`).  A failed validation raises, which
the embedding renders as `Except.error` with the first failing
constraint's message. -/
def mkClaim (id : String) (text : List Char) (span : Int × Int) (raw_confidence : ℚ)
    (is_factual : Bool) (claim_type : ClaimType) (extraction_confidence : ℚ)
    (hedging_detected : Bool) : Except String Claim :=
  if text.length < 1 then .error "text must have at least 1 character"
  else if span.1 > span.2 then .error "source_span start must be <= end"
  else if raw_confidence < 0 || 1 < raw_confidence then
    .error "raw_confidence must be in the range 0 to 1"
  else if extraction_confidence < 0 || 1 < extraction_confidence then
    .error "extraction_confidence must be in the range 0 to 1"
  else .ok ⟨id, text, span, raw_confidence, is_factual, claim_type,
    extraction_confidence, hedging_detected⟩

/-- `EvidenceChunk` (opaque `metadata` omitted). -/
structure EvidenceChunk where
  id : String
  text : List Char
  source : String
  similarity_score : ℚ
  chunk_index : Nat
deriving DecidableEq, Repr

/-- `AlignmentResult`. -/
structure AlignmentResult where
  claim_id : String
  evidence_id : String
  label : AlignmentLabel
  confidence : ℚ
  explanation : String
  temporal_match : Bool
  semantic_score : ℚ
  logical_score : ℚ
  contradiction_type : ContradictionType
  negation_detected : Bool
  claim_date : Option String
  evidence_date : Option String
deriving DecidableEq, Repr

/-- `CalibratedConfidence`.  The `penalty_breakdown` dict is modelled as
an association list in insertion order (every key is inserted at most
once per call). -/
structure CalibratedConfidence where
  claim_id : String
  raw_confidence : ℚ
  calibrated_confidence : ℚ
  penalties_applied : List String
  penalty_breakdown : List (String × ℚ)
deriving DecidableEq, Repr

/-- `Verdict`. -/
structure Verdict where
  claim : Claim
  label : VerdictLabel
  hallucination_risk : ℚ
  evidence_strength : ℚ
  calibrated_confidence : CalibratedConfidence
  alignments : List AlignmentResult
  best_evidence : Option EvidenceChunk
  contradiction_detected : Bool
  explanation : String
deriving DecidableEq, Repr

/-! ## Alignment evaluation (`src/evaluators/alignment.py`) -/

/-- The JSON object a successful `complete_json` call returns for the
alignment prompt, as the code reads it: `label` is schema-constrained to
the four label names, `contradiction_type` and `negation_detected` are
read with `.get` defaults, `contradiction_type` as a raw string that the
code parses defensively. -/
structure OracleAlignment where
  label : AlignmentLabel
  confidence : ℚ
  explanation : String
  temporal_match : Bool
  semantic_score : ℚ
  logical_score : ℚ
  negation_detected : Option Bool
  contradiction_type : Option String
  claim_date : Option String
  evidence_date : Option String
deriving DecidableEq, Repr

/-- `ContradictionType(s)` with the `except ValueError` fallback to
`NONE` for an unrecognized string. -/
def parse_contradiction_type (s : String) : ContradictionType :=
  if s == "NONE" then .NONE
  else if s == "DIRECT_NEGATION" then .DIRECT_NEGATION
  else if s == "TEMPORAL_MISMATCH" then .TEMPORAL_MISMATCH
  else if s == "QUANTITATIVE_MISMATCH" then .QUANTITATIVE_MISMATCH
  else if s == "OUTDATED_EVIDENCE" then .OUTDATED_EVIDENCE
  else if s == "PARTIAL_OVERLAP" then .PARTIAL_OVERLAP
  else .NONE

/-- `LLMAlignmentEvaluator._detect_contradiction_type`: rule-based
contradiction typing.  Set emptiness and disjointness over the Python
`set(...)` values coincide with the list tests used here. -/
def detect_contradiction_type (claim evidence : List Char)
    (claim_has_negation evidence_has_negation : Bool) : ContradictionType :=
  if claim_has_negation != evidence_has_negation then .DIRECT_NEGATION
  else
    let claim_years := extract_years claim
    let evidence_years := extract_years evidence
    if !claim_years.isEmpty && !evidence_years.isEmpty &&
        !(claim_years.any (fun y => evidence_years.contains y)) then
      .TEMPORAL_MISMATCH
    else
      let claim_numbers := extract_numbers claim
      let evidence_numbers := extract_numbers evidence
      if !claim_numbers.isEmpty && !evidence_numbers.isEmpty &&
          !(claim_numbers.any (fun n => evidence_numbers.contains n)) then
        .QUANTITATIVE_MISMATCH
      else .PARTIAL_OVERLAP

/-- `LLMAlignmentEvaluator._quick_temporal_check`. -/
def quick_temporal_check (claim evidence : List Char) : Bool :=
  let claim_markers := extract_temporal_markers claim
  let evidence_markers := extract_temporal_markers evidence
  if claim_markers.isEmpty then true
  else claim_markers.any (fun m => evidence_markers.contains m)

/-- Whitespace split (Python `str.split()` with no argument): maximal
runs of non-whitespace characters, in order. -/
def splitWordsAux (acc : List Char) : List Char → List (List Char)
  | [] => if acc.isEmpty then [] else [acc.reverse]
  | c :: cs =>
    if isSpaceChar c then
      if acc.isEmpty then splitWordsAux [] cs else acc.reverse :: splitWordsAux [] cs
    else splitWordsAux (c :: acc) cs

/-- Python `text.split()`. -/
def splitWords (text : List Char) : List (List Char) := splitWordsAux [] text

/-- Lowercase whitespace split of a text (Python `text.lower().split()`). -/
def lowerWords (text : List Char) : List (List Char) :=
  splitWords (text.map Char.toLower)

/-- `LLMAlignmentEvaluator._heuristic_evaluate`: the deterministic
fallback used when the LLM call raises, with `error` the stringified
exception. -/
def heuristic_evaluate (claim : Claim) (evidence : EvidenceChunk)
    (error : String) : AlignmentResult :=
  let semantic_score := evidence.similarity_score
  let temporal_match := quick_temporal_check claim.text evidence.text
  let claim_has_negation := detect_negation claim.text
  let evidence_has_negation := detect_negation evidence.text
  let negation_mismatch := claim_has_negation != evidence_has_negation
  let claim_words := (lowerWords claim.text).dedup
  let evidence_words := (lowerWords evidence.text).dedup
  let overlap : ℚ :=
    ((claim_words.filter (fun w => evidence_words.contains w)).length : ℚ) /
      (max claim_words.length 1 : ℚ)
  let logical_score := min (overlap * 2) 1
  let result :=
    if negation_mismatch && semantic_score > 1/2 then
      (AlignmentLabel.CONTRADICTS, ContradictionType.DIRECT_NEGATION)
    else if !temporal_match && semantic_score > 1/2 then
      (AlignmentLabel.CONTRADICTS, ContradictionType.TEMPORAL_MISMATCH)
    else
      let avg_score := (semantic_score + logical_score) / 2
      if avg_score > 7/10 then (AlignmentLabel.SUPPORTS, ContradictionType.NONE)
      else if avg_score > 4/10 then (AlignmentLabel.WEAK_SUPPORT, ContradictionType.NONE)
      else if avg_score < 1/5 then (AlignmentLabel.IRRELEVANT, ContradictionType.NONE)
      else (AlignmentLabel.WEAK_SUPPORT, ContradictionType.NONE)
  { claim_id := claim.id
    evidence_id := evidence.id
    label := result.1
    confidence := 1/2
    explanation := "Heuristic evaluation (LLM unavailable: " ++ (error.take 50) ++ ")"
    temporal_match := temporal_match
    semantic_score := semantic_score
    logical_score := logical_score
    contradiction_type := result.2
    negation_detected := negation_mismatch
    claim_date := none
    evidence_date := none }

/-- `LLMAlignmentEvaluator.evaluate_single`: `oracle` is the outcome of
`self.llm.complete_json` (`Except.error e` models the call raising, with
`e` the stringified exception). -/
def evaluate_single (oracle : Except String OracleAlignment) (claim : Claim)
    (evidence : EvidenceChunk) : AlignmentResult :=
  let claim_has_negation := detect_negation claim.text
  let evidence_has_negation := detect_negation evidence.text
  match oracle with
  | .error e => heuristic_evaluate claim evidence e
  | .ok result =>
    let contradiction_type_str := result.contradiction_type.getD "NONE"
    let ct0 := parse_contradiction_type contradiction_type_str
    let contradiction_type :=
      if result.label = .CONTRADICTS ∧ ct0 = .NONE then
        detect_contradiction_type claim.text evidence.text
          claim_has_negation evidence_has_negation
      else ct0
    { claim_id := claim.id
      evidence_id := evidence.id
      label := result.label
      confidence := result.confidence
      explanation := result.explanation
      temporal_match := result.temporal_match
      semantic_score := result.semantic_score
      logical_score := result.logical_score
      contradiction_type := contradiction_type
      negation_detected :=
        result.negation_detected.getD (claim_has_negation != evidence_has_negation)
      claim_date := result.claim_date
      evidence_date := result.evidence_date }

/-- `LLMAlignmentEvaluator.evaluate`: empty evidence gives `[]`, else one
`evaluate_single` per chunk; `oracleFor` gives each chunk's oracle
outcome. -/
def alignment_evaluate (oracleFor : EvidenceChunk → Except String OracleAlignment)
    (claim : Claim) (evidence : List EvidenceChunk) : List AlignmentResult :=
  if evidence.isEmpty then []
  else evidence.map (fun e => evaluate_single (oracleFor e) claim e)

/-! ## Confidence calibration (`src/calibrators/confidence.py`) -/

/-- `CalibrationConfig` with its defaults. -/
structure CalibrationConfig where
  no_evidence_penalty : ℚ := 2/5
  contradiction_penalty : ℚ := 3/5
  vague_language_penalty : ℚ := 1/5
  weak_evidence_penalty : ℚ := 3/20
deriving DecidableEq, Repr

/-- `PenaltyBasedCalibrator._has_contradiction`. -/
def has_contradiction (alignments : List AlignmentResult) : Bool :=
  alignments.any (fun a => a.label == .CONTRADICTS)

/-- `PenaltyBasedCalibrator._has_strong_support`. -/
def has_strong_support (alignments : List AlignmentResult) : Bool :=
  alignments.any (fun a => a.label == .SUPPORTS && a.confidence > 7/10)

/-- `PenaltyBasedCalibrator._compute_evidence_quality`: signed
label-weighted mean, shifted by 0.5 and clamped to [0,1]. -/
def compute_evidence_quality (alignments : List AlignmentResult)
    (evidence : List EvidenceChunk) : ℚ :=
  if alignments.isEmpty then 0
  else
    let label_weight : AlignmentLabel → ℚ := fun l =>
      match l with
      | .SUPPORTS => 1
      | .WEAK_SUPPORT => 1/2
      | .CONTRADICTS => -(1/2)
      | .IRRELEVANT => 0
    let scores := alignments.map (fun a =>
      let sim_score :=
        match evidence.find? (fun e => e.id == a.evidence_id) with
        | some e => e.similarity_score
        | none => 1/2
      label_weight a.label * a.confidence * sim_score)
    max 0 (min 1 (scores.sum / (alignments.length : ℚ) + 1/2))

/-- Running state of `calibrate`: the working confidence, the applied
penalty keys, and the signed breakdown entries, in order. -/
structure CalibState where
  cal : ℚ
  pens : List String
  brk : List (String × ℚ)
deriving DecidableEq, Repr

/-- Subtract a penalty and record its key and amount. -/
def apply_penalty (st : CalibState) (key : String) (p : ℚ) : CalibState :=
  ⟨st.cal - p, st.pens ++ [key], st.brk ++ [(key, p)]⟩

/-- `PenaltyBasedCalibrator.calibrate`. -/
def calibrate (cfg : CalibrationConfig) (claim : Claim)
    (alignments : List AlignmentResult) (evidence : List EvidenceChunk) :
    CalibratedConfidence :=
  let raw := claim.raw_confidence
  let st0 : CalibState := ⟨raw, [], []⟩
  let st1 :=
    if evidence.isEmpty then apply_penalty st0 "no_evidence" cfg.no_evidence_penalty
    else if has_contradiction alignments then
      apply_penalty st0 "contradiction_detected" cfg.contradiction_penalty
    else if !has_strong_support alignments then
      apply_penalty st0 "weak_evidence_only" cfg.weak_evidence_penalty
    else st0
  let st2 :=
    if detect_vague_language claim.text then
      apply_penalty st1 "vague_language" cfg.vague_language_penalty
    else st1
  let st3 :=
    if has_strong_support alignments && !has_contradiction alignments then
      let evidence_quality := compute_evidence_quality alignments evidence
      if evidence_quality > 7/10 then
        let boost := min (1/10) ((evidence_quality - 7/10) * (1/2))
        if boost > 0 then
          ⟨st2.cal + boost, st2.pens ++ ["strong_evidence_boost"],
            st2.brk ++ [("strong_evidence_boost", -boost)]⟩
        else ⟨st2.cal + boost, st2.pens, st2.brk⟩
      else st2
    else st2
  { claim_id := claim.id
    raw_confidence := raw
    calibrated_confidence := max 0 (min 1 st3.cal)
    penalties_applied := st3.pens
    penalty_breakdown := st3.brk }

/-! ## Verdict engine (`src/verdict/engine.py`) -/

/-- `VerdictConfig` with its defaults. -/
structure VerdictConfig where
  hallucination_threshold : ℚ := 3/10
  grounded_threshold : ℚ := 7/10
  confidence_weight : ℚ := 2/5
  evidence_weight : ℚ := 3/5
deriving DecidableEq, Repr

/-- `DefaultVerdictEngine._compute_evidence_strength` (the `evidence`
parameter is unused in the source too). -/
def compute_evidence_strength (alignments : List AlignmentResult)
    (_evidence : List EvidenceChunk) : ℚ :=
  if alignments.isEmpty then 0
  else
    let label_score : AlignmentLabel → ℚ := fun l =>
      match l with
      | .SUPPORTS => 1
      | .WEAK_SUPPORT => 1/2
      | .CONTRADICTS => 1/10
      | .IRRELEVANT => 0
    let scores := alignments.map (fun a =>
      let weighted :=
        label_score a.label * a.confidence * ((a.semantic_score + a.logical_score) / 2)
      if !a.temporal_match then weighted * (7/10) else weighted)
    match scores with
    | [] => 0
    | h :: t => t.foldl max h

/-- `DefaultVerdictEngine._find_best_evidence`. -/
def find_best_evidence (alignments : List AlignmentResult)
    (evidence : List EvidenceChunk) : Option EvidenceChunk :=
  if alignments.isEmpty || evidence.isEmpty then none
  else
    let byLabel := fun (lab : AlignmentLabel) =>
      alignments.findSome? (fun a =>
        if a.label = lab then evidence.find? (fun e => e.id == a.evidence_id) else none)
    match byLabel .SUPPORTS with
    | some e => some e
    | none =>
      match byLabel .WEAK_SUPPORT with
      | some e => some e
      | none =>
        match evidence with
        | [] => none
        | h :: t =>
          some (t.foldl (fun best e =>
            if e.similarity_score > best.similarity_score then e else best) h)

/-- The hallucination-risk combination used by
`DefaultVerdictEngine.compute`: the weighted sum of raw confidence and
evidence deficit, bumped by 0.2 and clamped at 1 on contradiction. -/
def hallucination_risk (cfg : VerdictConfig) (raw evidence_strength : ℚ)
    (contradiction_detected : Bool) : ℚ :=
  let risk := cfg.confidence_weight * raw + cfg.evidence_weight * (1 - evidence_strength)
  if contradiction_detected then min 1 (risk + 1/5) else risk

/-- Python `f"{x:.2f}"` applied to the score rationals: fixed two-decimal
rendering with round-half-to-even (scores here are non-negative). -/
def fmt2 (q : ℚ) : String :=
  let a := |q| * 100
  let f := ⌊a⌋
  let r := a - f
  let n : Int := if r < 1/2 then f else if r > 1/2 then f + 1 else if f % 2 = 0 then f else f + 1
  let n' := n.toNat
  let frac := n' % 100
  let fracStr := (if frac < 10 then "0" else "") ++ toString frac
  (if q < 0 ∧ n' ≠ 0 then "-" else "") ++ toString (n' / 100) ++ "." ++ fracStr

/-- `DefaultVerdictEngine._generate_explanation`. -/
def generate_explanation (_claim : Claim) (label : VerdictLabel)
    (evidence_strength : ℚ) (calibrated : CalibratedConfidence)
    (alignments : List AlignmentResult) (contradiction_detected : Bool) : String :=
  match label with
  | .HALLUCINATED =>
    let head := "High confidence (" ++ fmt2 calibrated.raw_confidence ++ ") with "
    let mid :=
      if alignments.isEmpty then "no supporting evidence found."
      else if contradiction_detected then "contradicting evidence."
      else "weak evidence (strength: " ++ fmt2 evidence_strength ++ ")."
    let tail :=
      if !calibrated.penalties_applied.isEmpty then
        " Penalties: " ++ String.intercalate ", " calibrated.penalties_applied ++ "."
      else ""
    head ++ mid ++ tail
  | .WEAK =>
    "Partial support found (evidence strength: " ++ fmt2 evidence_strength ++ "). " ++
      (if calibrated.calibrated_confidence < calibrated.raw_confidence then
        "Confidence reduced from " ++ fmt2 calibrated.raw_confidence ++ " to " ++
          fmt2 calibrated.calibrated_confidence ++ "."
      else "")
  | .GROUNDED =>
    "Strong evidence supports this claim (strength: " ++ fmt2 evidence_strength ++ "). " ++
      (if !alignments.isEmpty then
        let supporting := alignments.filter (fun a => a.label == .SUPPORTS)
        if !supporting.isEmpty then
          toString supporting.length ++ " evidence chunk(s) directly support."
        else ""
      else "")

/-- `DefaultVerdictEngine.compute`. -/
def verdict_compute (cfg : VerdictConfig) (claim : Claim)
    (evidence : List EvidenceChunk) (alignments : List AlignmentResult)
    (calibrated : CalibratedConfidence) : Verdict :=
  let evidence_strength := compute_evidence_strength alignments evidence
  let contradiction_detected := alignments.any (fun a => a.label == .CONTRADICTS)
  let risk := hallucination_risk cfg calibrated.raw_confidence evidence_strength
    contradiction_detected
  let label :=
    if evidence_strength ≥ cfg.grounded_threshold && !contradiction_detected then
      VerdictLabel.GROUNDED
    else if evidence_strength ≤ cfg.hallucination_threshold || contradiction_detected then
      VerdictLabel.HALLUCINATED
    else VerdictLabel.WEAK
  { claim := claim
    label := label
    hallucination_risk := risk
    evidence_strength := evidence_strength
    calibrated_confidence := calibrated
    alignments := alignments
    best_evidence := find_best_evidence alignments evidence
    contradiction_detected := contradiction_detected
    explanation := generate_explanation claim label evidence_strength calibrated
      alignments contradiction_detected }

/-! ## Local vector store (`src/retrievers/local_vector.py`) -/

/-- `RetrievalConfig` with its defaults. -/
structure RetrievalConfig where
  chunk_size : Nat := 512
  chunk_overlap : Nat := 64
  top_k : Nat := 5
  similarity_threshold : ℚ := 3/10
deriving DecidableEq, Repr

/-- Python slice `text[a:b]` for non-negative bounds. -/
def pySlice (text : List Char) (a b : Nat) : List Char := (text.drop a).take (b - a)

/-- Python `str.strip()` on ASCII whitespace. -/
def stripChars (l : List Char) : List Char :=
  ((l.dropWhile isSpaceChar).reverse.dropWhile isSpaceChar).reverse

/-- Python `text.rfind(sep, a, b)`: the highest position `p ≥ a` with the
separator fully inside `text[a:b]`, if any. -/
def rfind_in (text sep : List Char) (a b : Nat) : Option Nat :=
  ((List.range (text.length + 1)).filter (fun p =>
    a ≤ p && p + sep.length ≤ b && sep.isPrefixOf (text.drop p))).max?

/-- The sentence-boundary scan of `_chunk_text`: look in the last 20% of
the window for the latest occurrence of a separator past `start`, in
priority order; on success cut just after it, otherwise keep `end0`.
The Python search start is `int(end - chunk_size * 0.2)`; the ceiling
division below equals that IEEE expression at the default
`chunk_size = 512` (and the claims proved here never enter this branch,
which requires `end < len(text)` with `end ≥ chunk_size`). -/
def find_cut (text : List Char) (start end0 chunk_size : Nat) : Nat :=
  let search_start := end0 - (chunk_size * 2 + 9) / 10
  let seps := [". ".toList, ".\n".toList, "! ".toList, "? ".toList, "\n\n".toList]
  match seps.findSome? (fun sep =>
    match rfind_in text sep search_start end0 with
    | some p => if p > start then some (p + sep.length) else none
    | none => none) with
  | some e => e
  | none => end0

/-- The sliding-window loop of `LocalVectorStore._chunk_text`.  The fuel
starts at `text.length + 1`, enough for the default configuration, where
each iteration advances `start` by at least
`chunk_size − chunk_overlap − ⌈chunk_size/5⌉ > 0`. -/
def chunk_text_aux (cfg : RetrievalConfig) (text : List Char) :
    Nat → Nat → List (List Char)
  | 0, _ => []
  | fuel + 1, start =>
    if start < text.length then
      let end0 := start + cfg.chunk_size
      let endPos :=
        if end0 < text.length then find_cut text start end0 cfg.chunk_size else end0
      stripChars (pySlice text start endPos) ::
        chunk_text_aux cfg text fuel (endPos - cfg.chunk_overlap)
    else []

/-- `LocalVectorStore._chunk_text`: the stripped window contents with the
empty chunks filtered out. -/
def chunk_text (cfg : RetrievalConfig) (text : List Char) : List (List Char) :=
  (chunk_text_aux cfg text (text.length + 1) 0).filter (fun c => !c.isEmpty)

/-- A persisted row of the `chunks` table, with its embedding decoded. -/
structure StoredChunk where
  id : String
  text : List Char
  source : String
  chunk_index : Nat
  embedding : List ℚ
deriving DecidableEq, Repr

/-- `np.dot` of two (already normalized) vectors. -/
def dot (a b : List ℚ) : ℚ := (List.zipWith (fun x y => x * y) a b).sum

/-- The descending-similarity order used by `retrieve`'s
`sort(key=…, reverse=True)`. -/
def sim_desc (a b : EvidenceChunk) : Prop :=
  b.similarity_score ≤ a.similarity_score

instance : DecidableRel sim_desc := fun a b =>
  inferInstanceAs (Decidable (b.similarity_score ≤ a.similarity_score))

instance : IsTotal EvidenceChunk sim_desc :=
  ⟨fun a b => le_total b.similarity_score a.similarity_score⟩

instance : IsTrans EvidenceChunk sim_desc :=
  ⟨fun _ _ _ hab hbc => le_trans hbc hab⟩

/-- Python's `top_k or self.config.top_k`: the argument unless it is
`None` or `0` (both falsy). -/
def resolve_top_k (cfg : RetrievalConfig) (top_k : Option Nat) : Nat :=
  match top_k with
  | none => cfg.top_k
  | some t => if t = 0 then cfg.top_k else t

/-- The retrieval of `LocalVectorStore.retrieve`: `query_emb` is the
embedder's output for the claim, `rows` the stored chunks.
`List.insertionSort` is stable, like Python's sort, so ties keep
insertion order. -/
def retrieve (cfg : RetrievalConfig) (query_emb : List ℚ) (rows : List StoredChunk)
    (top_k : Option Nat) : List EvidenceChunk :=
  let k := resolve_top_k cfg top_k
  if rows.isEmpty then []
  else
    let results := rows.filterMap (fun r =>
      let similarity := dot query_emb r.embedding
      if similarity ≥ cfg.similarity_threshold then
        some (EvidenceChunk.mk r.id r.text r.source similarity r.chunk_index)
      else none)
    (List.insertionSort sim_desc results).take k

/-! ## Claim extraction (`src/extractors/claim_extractor.py`) -/

/-- `ExtractionConfig` with its defaults. -/
structure ExtractionConfig where
  max_claims : Nat := 50
  min_claim_length : Nat := 10
  max_retries : Nat := 3
  include_opinions : Bool := false
deriving DecidableEq, Repr

/-- One entry of the `claims` array of the extraction oracle's JSON
response, as the code reads it (`start`, `end`, `is_factual`,
`claim_type`, `extraction_confidence` are read with `.get` defaults). -/
structure OracleClaimEntry where
  text : List Char
  start : Option Int
  end_ : Option Int
  confidence : ℚ
  is_factual : Option Bool
  claim_type : Option String
  extraction_confidence : Option ℚ
deriving DecidableEq, Repr

/-- Lowercase a text (Python `str.lower()` on ASCII). -/
def toLowerList (l : List Char) : List Char := l.map Char.toLower

/-- Python `hay.find(needle)`: first index of the substring, if any. -/
def find_sub (hay needle : List Char) : Option Nat :=
  (List.range (hay.length + 1)).find? (fun i => needle.isPrefixOf (hay.drop i))

/-- The full `\b` assertion: the two sides disagree on word-character
status (an absent side counts as non-word). -/
def realBoundary (prev next : Option Char) : Bool :=
  (match prev with | none => false | some c => isWordChar c) !=
    (match next with | none => false | some c => isWordChar c)

/-- Match the escaped words joined by `\s+` starting at the head of the
text, case-insensitively (the words come from `str.split()`, so none
contains whitespace and the greedy runs cannot backtrack). -/
def matchWordsFrom : List (List Char) → List Char → Bool
  | [], _ => true
  | [w], rest => ciPrefix w rest
  | w :: ws, rest =>
    ciPrefix w rest &&
      (let r1 := rest.drop w.length
       !(r1.takeWhile isSpaceChar).isEmpty && matchWordsFrom ws (r1.dropWhile isSpaceChar))

/-- `re.search` of the fuzzy pattern `\b` + words joined by `\s+`:
the first position (match start) where the pattern matches. -/
def fuzzy_search_aux (words : List (List Char)) :
    Nat → Option Char → List Char → Option Nat
  | i, prev, [] =>
    if realBoundary prev none && matchWordsFrom words [] then some i else none
  | i, prev, c :: cs =>
    if realBoundary prev (some c) && matchWordsFrom words (c :: cs) then some i
    else fuzzy_search_aux words (i + 1) (some c) cs

/-- Search the whole text for the fuzzy first-words pattern. -/
def fuzzy_search (words : List (List Char)) (text : List Char) : Option Nat :=
  fuzzy_search_aux words 0 none text

/-- `re.search(r"[.!?]", s)`: index of the first sentence-ending
punctuation character. -/
def find_punct (l : List Char) : Option Nat :=
  l.findIdx? (fun c => c == '.' || c == '!' || c == '?')

/-- `LLMClaimExtractor._validate_spans`: locate each claim text in the
original input (exact case-insensitive, else fuzzy first-5-words); the
appended entry always clamps `end` to the input length and never touches
`start` outside the two found branches. -/
def validate_spans (entries : List OracleClaimEntry) (original_text : List Char) :
    List OracleClaimEntry :=
  entries.map (fun c =>
    let text := c.text
    let start0 : Int := c.start.getD 0
    let end0 : Int := c.end_.getD (text.length : Int)
    let se : Int × Int :=
      match find_sub (toLowerList original_text) (toLowerList text) with
      | some found_start => ((found_start : Int), ((found_start + text.length : Nat) : Int))
      | none =>
        let words := (splitWords text).take 5
        match fuzzy_search words original_text with
        | some m =>
          let e : Int := match find_punct (original_text.drop m) with
            | some j => (m : Int) + ((j : Int) + 1)
            | none => (m : Int) + (text.length : Int)
          ((m : Int), e)
        | none => (start0, end0)
    { c with start := some se.1, end_ := some (min se.2 (original_text.length : Int)) })

/-- `LLMClaimExtractor._generate_claim_id`.  The 12-hex-character sha256
digest is abstracted to its preimage string `"{text}:{start}"`; no claim
proved here depends on digest values. -/
def generate_claim_id (text : List Char) (start : Int) : String :=
  String.mk text ++ ":" ++ toString start

/-- `ClaimType(s)` with `none` for the `ValueError` case. -/
def parse_claim_type (s : String) : Option ClaimType :=
  if s == "DIRECT" then some .DIRECT
  else if s == "HEDGED" then some .HEDGED
  else if s == "MULTI_HOP" then some .MULTI_HOP
  else if s == "TEMPORAL" then some .TEMPORAL
  else if s == "COMPARATIVE" then some .COMPARATIVE
  else if s == "QUANTITATIVE" then some .QUANTITATIVE
  else none

/-- The claim-building loop of `extract_with_confidence` over the
span-validated entries (whose `start`/`end` are always set): filter
opinions and short texts, stop at `max_claims`, apply the lexical
overrides, and construct each `Claim`; a failed pydantic validation
raises, which propagates as `Except.error`. -/
def build_claims_aux (cfg : ExtractionConfig) :
    List OracleClaimEntry → List Claim → Except String (List Claim)
  | [], acc => .ok acc
  | c :: rest, acc =>
    if !cfg.include_opinions && !(c.is_factual.getD true) then build_claims_aux cfg rest acc
    else if c.text.length < cfg.min_claim_length then build_claims_aux cfg rest acc
    else if acc.length ≥ cfg.max_claims then .ok acc
    else
      let llm_claim_type := c.claim_type.getD "DIRECT"
      let claim_type0 :=
        match parse_claim_type llm_claim_type with
        | some t => t
        | none => detect_claim_type c.text
      let hedging_detected := detect_hedging c.text
      let claim_type :=
        if hedging_detected && claim_type0 ≠ ClaimType.HEDGED then ClaimType.HEDGED
        else claim_type0
      match mkClaim (generate_claim_id c.text (c.start.getD 0)) c.text
          (c.start.getD 0, c.end_.getD 0) c.confidence (c.is_factual.getD true)
          claim_type (c.extraction_confidence.getD (9/10)) hedging_detected with
      | .ok cl => build_claims_aux cfg rest (acc ++ [cl])
      | .error e => .error e

/-- The metadata dict of `extract_with_confidence` (absent keys of the
degenerate-case dicts are rendered as zeros/empty). -/
structure ExtractionMeta where
  error : Option String
  total_extracted : Nat
  after_filtering : Nat
  filtered_opinions : Nat
  hedged_claims : Nat
  claim_types : List (ClaimType × Nat)
deriving DecidableEq, Repr

/-- `LLMClaimExtractor.extract_with_confidence`: `oracle` is the outcome
of the retry loop over `complete_json` (`Except.error` once all
`max_retries` attempts raised).  A pydantic validation error during
`Claim` construction is NOT caught here and propagates to the caller. -/
def extract_with_confidence (cfg : ExtractionConfig)
    (oracle : Except String (List OracleClaimEntry)) (text : List Char) :
    Except String (List Claim × ExtractionMeta) :=
  if (stripChars text).isEmpty then
    .ok ([], ⟨some "Empty input text", 0, 0, 0, 0, []⟩)
  else
    match oracle with
    | .error e =>
      .ok ([], ⟨some ("Extraction failed after " ++ toString cfg.max_retries ++
        " attempts: " ++ e), 0, 0, 0, 0, []⟩)
    | .ok claims_data0 =>
      let claims_data := validate_spans claims_data0 text
      match build_claims_aux cfg claims_data [] with
      | .error e => .error e
      | .ok claims =>
        .ok (claims,
          { error := none
            total_extracted := claims_data.length
            after_filtering := claims.length
            filtered_opinions :=
              (claims_data.filter (fun c => !(c.is_factual.getD true))).length
            hedged_claims := (claims.filter (fun c => c.hedging_detected)).length
            claim_types :=
              [ClaimType.DIRECT, .HEDGED, .MULTI_HOP, .TEMPORAL, .COMPARATIVE,
                .QUANTITATIVE].map (fun ct =>
                  (ct, (claims.filter (fun c => c.claim_type == ct)).length)) })

/-! ## Named defaults and concrete instances used by the theorems -/

/-- The default `CalibrationConfig` (penalties 0.4 / 0.6 / 0.2 / 0.15). -/
def default_calibration_config : CalibrationConfig := {}

/-- The default `VerdictConfig` (thresholds 0.3 / 0.7, weights 0.4 / 0.6). -/
def default_verdict_config : VerdictConfig := {}

/-- The default `RetrievalConfig` (chunk 512 / overlap 64 / top 5 / 0.3). -/
def default_retrieval_config : RetrievalConfig := {}

/-- The default `ExtractionConfig` (50 / 10 / 3 / opinions off). -/
def default_extraction_config : ExtractionConfig := {}

/-- A factual sample claim with no vague/hedging language. -/
def sampleClaim : Claim :=
  ⟨"c1", "Paris is the capital of France".toList, (0, 30), 9/10, true, .DIRECT,
    9/10, false⟩

/-- A sample evidence chunk with similarity 0.8. -/
def sampleEvidence : EvidenceChunk :=
  ⟨"e1", "Paris has been the capital of France".toList, "doc.txt", 4/5, 0⟩

/-- Oracle output carrying a non-CONTRADICTS label together with a
non-NONE contradiction type. -/
def oracleSupportsWithType : OracleAlignment :=
  ⟨.SUPPORTS, 9/10, "supported", true, 9/10, 4/5, some false,
    some "DIRECT_NEGATION", none, none⟩

/-- Oracle output with label CONTRADICTS and an unspecified type. -/
def oracleContradictsNoType : OracleAlignment :=
  ⟨.CONTRADICTS, 9/10, "contradicts", true, 9/10, 1/10, some true,
    some "NONE", none, none⟩

/-- A strong supporting alignment (SUPPORTS with confidence above 0.7). -/
def alignStrong : AlignmentResult :=
  ⟨"c1", "e1", .SUPPORTS, 19/20, "strong", true, 19/20, 9/10, .NONE, false,
    none, none⟩

/-- The sample claim with raw confidence 0.2 (below 0.5). -/
def claimLowConf : Claim :=
  ⟨"c2", "Paris is the capital of France".toList, (0, 30), 1/5, true, .DIRECT,
    9/10, false⟩

/-- A 500-character input: shorter than `chunk_size` (512) but longer
than `chunk_size − chunk_overlap` (448). -/
def text500 : List Char := List.replicate 500 'a'

/-- The original input of the span-repair scenario. -/
def origText : List Char := "Paris is the capital of France.".toList

/-- An oracle claim whose text occurs nowhere in `origText` and whose
reported start offset exceeds `origText.length`. -/
def entryNotFound : OracleClaimEntry :=
  ⟨"Berlin has nine million residents".toList, some 1000, some 1010, 9/10,
    some true, some "DIRECT", some (9/10)⟩

/-- The signed sum of the recorded breakdown values. -/
def penalty_sum (l : List (String × ℚ)) : ℚ := (l.map Prod.snd).sum

/-! ## Theorems -/

/-- The rule-based contradiction typing never returns NONE: each of its
four outcomes is a concrete non-NONE constructor. -/
theorem detect_contradiction_type_ne_NONE (c e : List Char) (cn en : Bool) :
    detect_contradiction_type c e cn en ≠ ContradictionType.NONE := by
  simp only [detect_contradiction_type]
  split_ifs <;> simp

/-- C1 (amended): every `evaluate_single` result with label CONTRADICTS
carries a non-NONE contradiction type (on both the oracle path and the
heuristic fallback), and on the heuristic fallback a non-CONTRADICTS
label carries type NONE; the oracle path, however, keeps the oracle's
recognized contradiction type unchanged for non-CONTRADICTS labels. -/
theorem evaluate_single_contradiction_type_invariant
    (oracle : Except String OracleAlignment) (claim : Claim)
    (evidence : EvidenceChunk) (err : String) :
    ((evaluate_single oracle claim evidence).label = AlignmentLabel.CONTRADICTS →
      (evaluate_single oracle claim evidence).contradiction_type ≠ ContradictionType.NONE) ∧
    ((heuristic_evaluate claim evidence err).label ≠ AlignmentLabel.CONTRADICTS →
      (heuristic_evaluate claim evidence err).contradiction_type = ContradictionType.NONE) := by
  constructor
  · intro hlab
    match oracle with
    | .error e =>
      revert hlab
      show (heuristic_evaluate claim evidence e).label = _ →
        (heuristic_evaluate claim evidence e).contradiction_type ≠ _
      simp only [heuristic_evaluate]
      split_ifs <;> simp
    | .ok result =>
      revert hlab
      unfold evaluate_single
      by_cases hc : result.label = AlignmentLabel.CONTRADICTS ∧
          parse_contradiction_type (result.contradiction_type.getD "NONE") =
            ContradictionType.NONE
      · simp only [hc, if_true]
        intro _
        exact detect_contradiction_type_ne_NONE _ _ _ _
      · simp only [hc, if_false]
        intro hlab hnone
        exact hc ⟨hlab, hnone⟩
  · simp only [heuristic_evaluate]
    split_ifs <;> simp

attribute [local semireducible] Rat.add Rat.mul Rat.div Rat.sub Rat.neg Rat.inv in
/-- C1 counterexample: when the oracle returns label SUPPORTS together
with contradiction type DIRECT_NEGATION, the evaluator keeps the
non-NONE type on the non-CONTRADICTS result instead of resetting it. -/
theorem evaluate_single_keeps_oracle_type :
    (evaluate_single (.ok oracleSupportsWithType) sampleClaim sampleEvidence).label =
      AlignmentLabel.SUPPORTS ∧
    (evaluate_single (.ok oracleSupportsWithType) sampleClaim sampleEvidence).contradiction_type =
      ContradictionType.DIRECT_NEGATION := by
  decide

attribute [local semireducible] Rat.add Rat.mul Rat.div Rat.sub Rat.neg Rat.inv in
/-- C1 witness: the invariant theorem applied at a concrete oracle
output with label CONTRADICTS and unspecified type, and at a concrete
heuristic fallback. -/
theorem evaluate_single_contradiction_type_invariant_witness :
    (evaluate_single (.ok oracleContradictsNoType) sampleClaim sampleEvidence).contradiction_type ≠
      ContradictionType.NONE ∧
    (heuristic_evaluate sampleClaim sampleEvidence "boom").contradiction_type =
      ContradictionType.NONE :=
  ⟨(evaluate_single_contradiction_type_invariant (.ok oracleContradictsNoType)
      sampleClaim sampleEvidence "boom").1 (by decide),
   (evaluate_single_contradiction_type_invariant (.ok oracleContradictsNoType)
      sampleClaim sampleEvidence "boom").2 (by decide)⟩

/-- C2 (amended): the three penalties no_evidence / contradiction_detected /
weak_evidence_only are mutually exclusive — at most one appears, and
exactly one appears unless evidence is non-empty with no contradiction
and strong support, in which case none of the three fires; the
vague_language penalty is applied independently of the three. -/
theorem calibrate_penalty_precedence (cfg : CalibrationConfig) (claim : Claim)
    (alignments : List AlignmentResult) (evidence : List EvidenceChunk) :
    ((calibrate cfg claim alignments evidence).penalties_applied.count "no_evidence" +
      (calibrate cfg claim alignments evidence).penalties_applied.count "contradiction_detected" +
      (calibrate cfg claim alignments evidence).penalties_applied.count "weak_evidence_only" =
      if evidence.isEmpty || has_contradiction alignments || !has_strong_support alignments
      then 1 else 0) ∧
    (calibrate cfg claim alignments evidence).penalties_applied.count "vague_language" =
      (if detect_vague_language claim.text then 1 else 0) := by
  simp only [calibrate, apply_penalty]
  split_ifs <;> simp_all

attribute [local semireducible] Rat.add Rat.mul Rat.div Rat.sub Rat.neg Rat.inv in
/-- C2 counterexample: with non-empty evidence, no contradiction and a
strong supporting alignment, none of the three penalties fires, refuting
that one of them always does. -/
theorem calibrate_none_of_three_fires :
    (calibrate default_calibration_config sampleClaim [alignStrong] [sampleEvidence]).penalties_applied.count "no_evidence" +
      (calibrate default_calibration_config sampleClaim [alignStrong] [sampleEvidence]).penalties_applied.count "contradiction_detected" +
      (calibrate default_calibration_config sampleClaim [alignStrong] [sampleEvidence]).penalties_applied.count "weak_evidence_only" = 0 := by
  decide

/-- C3: a verdict's contradiction flag holds exactly when one of its
alignments carries the CONTRADICTS label. -/
theorem verdict_contradiction_flag_iff (cfg : VerdictConfig) (claim : Claim)
    (evidence : List EvidenceChunk) (alignments : List AlignmentResult)
    (calibrated : CalibratedConfidence) :
    (verdict_compute cfg claim evidence alignments calibrated).contradiction_detected = true ↔
      ∃ a ∈ (verdict_compute cfg claim evidence alignments calibrated).alignments,
        a.label = AlignmentLabel.CONTRADICTS := by
  simp only [verdict_compute]
  simp [List.any_eq_true]

/-- When the evidence quality exceeds 0.7 the computed boost is
strictly positive, so the `if boost > 0` recording branch always fires
together with the quality test. -/
theorem boost_pos (q : ℚ) (hq : q > 7/10) : 0 < min (1/10) ((q - 7/10) * (1/2)) := by
  apply lt_min
  · norm_num
  · linarith

set_option maxHeartbeats 1000000 in
/-- C4: the calibrated confidence is exactly the raw confidence minus the
signed sum of the breakdown entries (boosts recorded negative), clamped
to the unit interval. -/
theorem calibrate_penalty_accounting (cfg : CalibrationConfig) (claim : Claim)
    (alignments : List AlignmentResult) (evidence : List EvidenceChunk) :
    (calibrate cfg claim alignments evidence).calibrated_confidence =
      max 0 (min 1 (claim.raw_confidence -
        penalty_sum (calibrate cfg claim alignments evidence).penalty_breakdown)) := by
  simp only [calibrate, apply_penalty, penalty_sum]
  split_ifs
  all_goals simp only [List.map_append, List.map_cons, List.map_nil, List.sum_append,
    List.sum_cons, List.sum_nil, List.nil_append, List.append_nil]
  all_goals first
  | rfl
  | (exact absurd (boost_pos _ (by assumption)) (by assumption))
  | (congr 2 <;> ring)

/-- C5: because `YEAR_PATTERN` has the capturing group `(19|20)`,
`re.findall` returns only the century prefix, so both year sets for
`"Released in 2021"` and `"Released in 2023"` are `{"20"}` and
intersect; the temporal rule cannot fire and the rule order falls
through to the number sets, yielding QUANTITATIVE_MISMATCH instead of
the documented TEMPORAL_MISMATCH. -/
theorem extract_years_group_capture_bug :
    extract_years ("Released in 2021".toList) = ["20"] ∧
    extract_years ("Released in 2023".toList) = ["20"] ∧
    detect_contradiction_type ("Released in 2021".toList) ("Released in 2023".toList)
      false false = ContradictionType.QUANTITATIVE_MISMATCH := by
  decide

/-- C6 (amended): for any claim processed with an empty retrieved-evidence
list under the default configurations, the alignments list is empty, the
evidence strength is 0, the no_evidence penalty is applied exactly once,
and the verdict label is HALLUCINATED unconditionally (the label test
`evidence_strength ≤ hallucination_threshold` already holds at strength
0, regardless of raw_confidence). -/
theorem empty_corpus_verdict (claim : Claim)
    (oracleFor : EvidenceChunk → Except String OracleAlignment) :
    alignment_evaluate oracleFor claim [] = [] ∧
    compute_evidence_strength (alignment_evaluate oracleFor claim []) [] = 0 ∧
    (calibrate default_calibration_config claim
      (alignment_evaluate oracleFor claim []) []).penalties_applied.count "no_evidence" = 1 ∧
    (verdict_compute default_verdict_config claim []
      (alignment_evaluate oracleFor claim [])
      (calibrate default_calibration_config claim
        (alignment_evaluate oracleFor claim []) [])).label = VerdictLabel.HALLUCINATED := by
  have h : alignment_evaluate oracleFor claim [] = [] := rfl
  rw [h]
  refine ⟨rfl, rfl, ?_, ?_⟩
  · simp only [calibrate, apply_penalty]
    split_ifs <;>
      simp_all [has_contradiction, has_strong_support, List.count_cons, List.count_append,
        List.count_nil]
  · simp only [verdict_compute, compute_evidence_strength]
    norm_num [default_verdict_config]

attribute [local semireducible] Rat.add Rat.mul Rat.div Rat.sub Rat.neg Rat.inv in
/-- C6 counterexample: with an empty corpus a claim of raw confidence 0.2
is still HALLUCINATED, refuting the claimed equivalence with
`raw_confidence ≥ 0.5`. -/
theorem empty_corpus_low_confidence_still_hallucinated :
    (verdict_compute default_verdict_config claimLowConf []
      (alignment_evaluate (fun _ => .error "api down") claimLowConf [])
      (calibrate default_calibration_config claimLowConf
        (alignment_evaluate (fun _ => .error "api down") claimLowConf []) [])).label =
      VerdictLabel.HALLUCINATED ∧
    ¬(claimLowConf.raw_confidence ≥ 1/2) := by
  decide

/-- C6 witness: the empty-corpus theorem applied at the concrete sample
claim and a failing oracle. -/
theorem empty_corpus_verdict_witness :
    alignment_evaluate (fun _ => Except.error "down") sampleClaim [] = [] ∧
    compute_evidence_strength
      (alignment_evaluate (fun _ => Except.error "down") sampleClaim []) [] = 0 :=
  ⟨(empty_corpus_verdict sampleClaim (fun _ => Except.error "down")).1,
   (empty_corpus_verdict sampleClaim (fun _ => Except.error "down")).2.1⟩

/-- C7 (amended): a text of length at most `chunk_size − chunk_overlap`
(448 under the defaults) that is non-empty after stripping produces
exactly one chunk: the window covers the text and the next window start
`end − chunk_overlap = 448` falls at or past the end of the text. -/
theorem chunk_text_short_single (text : List Char) (h1 : text.length ≤ 448)
    (h2 : stripChars text ≠ []) :
    (chunk_text default_retrieval_config text).length = 1 := by
  have hne : text ≠ [] := by
    intro h
    rw [h] at h2
    exact h2 rfl
  have hlen : 0 < text.length := List.length_pos.mpr hne
  obtain ⟨k, hk⟩ : ∃ k, text.length = k + 1 := ⟨text.length - 1, by omega⟩
  unfold chunk_text
  simp only [chunk_text_aux, default_retrieval_config]
  rw [if_pos hlen]
  rw [if_neg (by omega : ¬(0 + 512 < text.length))]
  have hslice : pySlice text 0 (0 + 512) = text := by
    simp [pySlice, List.take_of_length_le (by omega : text.length ≤ 0 + 512)]
  rw [hslice]
  rw [hk]
  simp only [chunk_text_aux]
  rw [if_neg (by omega : ¬(0 + 512 - 64 < text.length))]
  have hE : (stripChars text).isEmpty = false := by
    cases he : (stripChars text).isEmpty
    · rfl
    · exact absurd (List.isEmpty_iff.mp he) h2
  simp [hE]

/-- C7 witness: the single-chunk theorem applied to a concrete short
sentence. -/
theorem chunk_text_short_single_witness :
    (chunk_text default_retrieval_config ("The sky is blue.".toList)).length = 1 :=
  chunk_text_short_single ("The sky is blue.".toList) (by decide) (by decide)

set_option maxRecDepth 10000 in
/-- C7 counterexample: a 500-character input is strictly shorter than
`chunk_size = 512` and non-blank, yet the overlap re-entry
(`start = end − chunk_overlap = 448 < 500`) produces a second chunk. -/
theorem chunk_text_short_two_chunks :
    text500.length < 512 ∧ stripChars text500 ≠ [] ∧
      (chunk_text default_retrieval_config text500).length = 2 := by
  decide

/-- C8: every retrieved chunk scores at least the similarity threshold,
the result is sorted by non-increasing similarity, its length is bounded
by the resolved top-k, and an empty store yields the empty list. -/
theorem retrieve_contract (cfg : RetrievalConfig) (query_emb : List ℚ)
    (rows : List StoredChunk) (top_k : Option Nat) :
    ((retrieve cfg query_emb rows top_k).all
      (fun e => decide (cfg.similarity_threshold ≤ e.similarity_score)) = true) ∧
    (retrieve cfg query_emb rows top_k).Pairwise sim_desc ∧
    (retrieve cfg query_emb rows top_k).length ≤ resolve_top_k cfg top_k ∧
    retrieve cfg query_emb [] top_k = [] := by
  refine ⟨?_, ?_, ?_, rfl⟩
  · rw [List.all_eq_true]
    intro e he
    rw [decide_eq_true_iff]
    simp only [retrieve] at he
    split_ifs at he
    · simp at he
    · have he2 := List.mem_of_mem_take he
      rw [(List.perm_insertionSort sim_desc _).mem_iff] at he2
      obtain ⟨r, _, hf⟩ := List.mem_filterMap.mp he2
      by_cases hth : dot query_emb r.embedding ≥ cfg.similarity_threshold
      · rw [if_pos hth] at hf
        obtain rfl := Option.some_injective _ hf
        exact hth
      · rw [if_neg hth] at hf
        exact absurd hf (by simp)
  · simp only [retrieve]
    split_ifs
    · exact List.Pairwise.nil
    · exact ((List.sorted_insertionSort sim_desc _).sublist (List.take_sublist _ _))
  · simp only [retrieve]
    split_ifs
    · simp
    · exact le_trans (List.length_take_le _ _) (le_refl _)

/-- C9: the hallucination-risk combination used by the verdict engine is
monotone non-decreasing in raw confidence and non-increasing in evidence
strength (with the configured non-negative weights), and the risk the
engine stores is exactly that combination of the calibrated record's raw
confidence, the computed evidence strength and the contradiction flag. -/
theorem hallucination_risk_monotone (cfg : VerdictConfig) (raw raw2 s s2 : ℚ)
    (contra : Bool) (claim : Claim) (evidence : List EvidenceChunk)
    (alignments : List AlignmentResult) (calibrated : CalibratedConfidence)
    (hcw : 0 ≤ cfg.confidence_weight) (hew : 0 ≤ cfg.evidence_weight)
    (hr : raw ≤ raw2) (hs : s ≤ s2) :
    hallucination_risk cfg raw s contra ≤ hallucination_risk cfg raw2 s contra ∧
    hallucination_risk cfg raw s2 contra ≤ hallucination_risk cfg raw s contra ∧
    (verdict_compute cfg claim evidence alignments calibrated).hallucination_risk =
      hallucination_risk cfg calibrated.raw_confidence
        (compute_evidence_strength alignments evidence)
        (alignments.any (fun a => a.label == AlignmentLabel.CONTRADICTS)) := by
  have hbase1 : cfg.confidence_weight * raw + cfg.evidence_weight * (1 - s) ≤
      cfg.confidence_weight * raw2 + cfg.evidence_weight * (1 - s) := by
    have := mul_le_mul_of_nonneg_left hr hcw
    linarith
  have hbase2 : cfg.confidence_weight * raw + cfg.evidence_weight * (1 - s2) ≤
      cfg.confidence_weight * raw + cfg.evidence_weight * (1 - s) := by
    have := mul_le_mul_of_nonneg_left (by linarith : 1 - s2 ≤ 1 - s) hew
    linarith
  refine ⟨?_, ?_, rfl⟩
  · simp only [hallucination_risk]
    cases contra
    · simpa using hbase1
    · simp only [if_true]
      exact min_le_min (le_refl 1) (by linarith)
  · simp only [hallucination_risk]
    cases contra
    · simpa using hbase2
    · simp only [if_true]
      exact min_le_min (le_refl 1) (by linarith)

attribute [local semireducible] Rat.add Rat.mul Rat.div Rat.sub Rat.neg Rat.inv in
/-- C9 witness: the monotonicity theorem applied at the default weights
and concrete confidences and strengths. -/
theorem hallucination_risk_monotone_witness :
    hallucination_risk default_verdict_config 0 0 true ≤
      hallucination_risk default_verdict_config 1 0 true ∧
    hallucination_risk default_verdict_config 0 1 true ≤
      hallucination_risk default_verdict_config 0 0 true :=
  ⟨(hallucination_risk_monotone default_verdict_config 0 1 0 1 true sampleClaim [] []
      (CalibratedConfidence.mk "c" 0 0 [] []) (by decide) (by decide) (by decide)
      (by decide)).1,
   (hallucination_risk_monotone default_verdict_config 0 1 0 1 true sampleClaim [] []
      (CalibratedConfidence.mk "c" 0 0 [] []) (by decide) (by decide) (by decide)
      (by decide)).2.1⟩

attribute [local semireducible] Rat.add Rat.mul Rat.div Rat.sub Rat.neg Rat.inv in
/-- C10: span repair clamps only the end offset.  For an oracle claim
whose text is found neither exactly nor by the fuzzy first-5-words
pattern and whose reported start (1000) exceeds the input length (31),
the repaired span keeps start = 1000 and clamps end to 31, so the
`Claim` span validation fails and the exception propagates out of
`extract_with_confidence` instead of becoming error metadata. -/
theorem span_repair_clamps_only_end :
    ((validate_spans [entryNotFound] origText).map (fun c => (c.start, c.end_)) =
      [(some 1000, some 31)]) ∧
    origText.length = 31 ∧
    extract_with_confidence default_extraction_config (.ok [entryNotFound]) origText =
      .error "source_span start must be <= end" := by
  decide
